import Mathlib

/-!
A shallow embedding of the SurfBiomech Analyzer video-annotation application
(src/App.tsx, src/types.ts).  JavaScript numbers are modelled as rationals
(ℚ); JavaScript strings as Lean strings.  Stateful React handlers become
pure functions on explicit state records.  The `x || y` JavaScript idiom on
numbers is modelled by `jsOr` (falsy ⇔ zero; NaN is outside the model).

The first half of the file holds the definitions (the embedding of the
data model, the event handlers and the playback state machine, plus the
concrete example values used by the witness theorems); the second half
holds the theorems.
-/

namespace VideoAnalise

/-! ## Definitions: data model, handlers, state machines -/

/-- JavaScript `a || b` on numbers: `a` when truthy (nonzero), else `b`. -/
def jsOr (a b : ℚ) : ℚ := if a = 0 then b else a

/-- Data model `Point` from src/types.ts: normalized unit coordinates. -/
structure Point where
  x : ℚ
  y : ℚ
deriving Repr, DecidableEq

/-- Data model `DrawingPath` from src/types.ts. -/
structure DrawingPath where
  id : String
  time : ℚ
  points : List Point
  color : String
  size : ℚ
deriving Repr, DecidableEq

/-- Data model `Annotation` from src/types.ts. -/
structure Annotation where
  id : String
  time : ℚ
  x : ℚ
  y : ℚ
  text : String
  color : String
deriving Repr, DecidableEq

/-- Data model `Clip` from src/types.ts. -/
structure Clip where
  id : String
  name : String
  startTime : ℚ
  endTime : ℚ
  duration : ℚ
  speed : ℚ
deriving Repr, DecidableEq

/-- The HTMLVideoElement fields the application reads and writes. -/
structure VideoEl where
  currentTime : ℚ
  duration : ℚ
  paused : Bool
  playbackRate : ℚ
deriving Repr, DecidableEq

/-- The annotation-data slice of the App component state
(`notes`, `drawings`, `annotations`, `clips` in src/App.tsx). -/
structure AppData where
  notes : String
  drawings : List DrawingPath
  annotations : List Annotation
  clips : List Clip
deriving Repr, DecidableEq

/-- The `currentMode` tool state (`ToolMode` in src/types.ts). -/
inductive ToolMode
  | point
  | pen
  | node
deriving Repr, DecidableEq

/-- The point-mode branch of `handleStartInteraction` (src/App.tsx lines
202-227): the callback run when the name prompt is confirmed with a truthy
`text`.  It appends one `Annotation` at the current video time and position
and one auto `Clip` with `duration := 2`, `speed := 0.5`,
`startTime := time` and
`endTime := Math.min(time + 2, videoRef.current?.duration || time + 2)`.
`annId`/`clipId` stand for the two `generateId()` results. -/
def placePointAndClip (annId clipId : String) (video : VideoEl)
    (pos : Point) (text : String) (brushColor : String)
    (s : AppData) : AppData :=
  let time := jsOr video.currentTime 0
  let newAnn : Annotation :=
    { id := annId, time := time, x := pos.x, y := pos.y,
      text := text, color := brushColor }
  let newClip : Clip :=
    { id := clipId, name := text, startTime := time,
      endTime := min (time + 2) (jsOr video.duration (time + 2)),
      duration := 2, speed := 1/2 }
  { s with annotations := s.annotations ++ [newAnn],
           clips := s.clips ++ [newClip] }

/-- The clip delete button handler (src/App.tsx lines 596-604):
`setClips(clips.filter(c => c.id !== clip.id))` and
`setAnnotations(annotations.filter(a => a.text !== clip.name))`. -/
def deleteClip (clip : Clip) (s : AppData) : AppData :=
  { s with clips := s.clips.filter (fun c => c.id ≠ clip.id),
           annotations := s.annotations.filter (fun a => a.text ≠ clip.name) }

/-- A DOMRect as returned by `getBoundingClientRect`. -/
structure Rect where
  left : ℚ
  top : ℚ
  width : ℚ
  height : ℚ
deriving Repr, DecidableEq

/-- One entry of a TouchEvent's `touches` list. -/
structure Touch where
  clientX : ℚ
  clientY : ℚ
deriving Repr, DecidableEq

/-- The pointer events fed to the canvas handlers: a MouseEvent carries
`clientX`/`clientY` directly; a TouchEvent carries a `touches` list, here
split as first touch plus the rest (touchstart/touchmove always have at
least one touch, and the code reads `e.touches[0]`). -/
inductive PointerEvent
  | mouse (clientX clientY : ℚ)
  | touch (first : Touch) (rest : List Touch)
deriving Repr, DecidableEq

/-- Function `getNormalizedPos` (src/App.tsx lines 95-103). -/
def getNormalizedPos (e : PointerEvent) (rect : Rect) : Point :=
  let clientX := match e with
    | .mouse cx _ => cx
    | .touch f _ => f.clientX
  let clientY := match e with
    | .mouse _ cy => cy
    | .touch f _ => f.clientY
  { x := (clientX - rect.left) / rect.width,
    y := (clientY - rect.top) / rect.height }

/-- The playback-related App state touched by `playClip` / `stopClip`
(src/App.tsx): the video element, the `isClipPlaying` / `activeClipId`
flags, the `videoStateBeforeClip` ref (`savedTime`, `savedWasPlaying`),
the global `playbackSpeed` and the `isPlaying` flag. -/
structure PlayerState where
  video : VideoEl
  isClipPlaying : Bool
  activeClipId : Option String
  savedTime : ℚ
  savedWasPlaying : Bool
  playbackSpeed : ℚ
  isPlaying : Bool
deriving Repr, DecidableEq

/-- Function `playClip` (src/App.tsx lines 286-306), with `videoRef.current`
present.  `videoStateBeforeClip` is captured only when `isClipPlaying` is
false; the video is paused, seeked to `clip.startTime`, its rate set to
`clip.speed`, then played. -/
def playClip (clip : Clip) (s : PlayerState) : PlayerState :=
  let saved :=
    if !s.isClipPlaying then (s.video.currentTime, !s.video.paused)
    else (s.savedTime, s.savedWasPlaying)
  { s with
    savedTime := saved.1,
    savedWasPlaying := saved.2,
    isClipPlaying := true,
    activeClipId := some clip.id,
    video := { s.video with
      currentTime := clip.startTime,
      playbackRate := clip.speed,
      paused := false } }

/-- Function `stopClip` (src/App.tsx lines 308-328), with `videoRef.current`
present: pause, restore the global rate; when `resume` seek back to the
saved time and play again only if `savedWasPlaying`; clear the clip
flags. -/
def stopClip (resume : Bool) (s : PlayerState) : PlayerState :=
  let v1 := { s.video with paused := true, playbackRate := s.playbackSpeed }
  if resume then
    if s.savedWasPlaying then
      { s with
        video := { v1 with currentTime := s.savedTime, paused := false },
        isPlaying := true, isClipPlaying := false, activeClipId := none }
    else
      { s with
        video := { v1 with currentTime := s.savedTime },
        isPlaying := false, isClipPlaying := false, activeClipId := none }
  else
    { s with video := v1, isClipPlaying := false, activeClipId := none }

/-- The video element advancing (or being moved) to time `t` between
handler invocations; no App state other than the element's clock moves. -/
def advanceTime (t : ℚ) (s : PlayerState) : PlayerState :=
  { s with video := { s.video with currentTime := t } }

/-- A sequence of further `playClip` calls, the video clock sitting at the
paired time when each call happens. -/
def playSeq (s : PlayerState) (l : List (ℚ × Clip)) : PlayerState :=
  l.foldl (fun st p => playClip p.2 (advanceTime p.1 st)) s

/-- The drawing-interaction slice of the App state (`currentMode`,
`isDrawing`, `currentPathRef`, `drawings`, brush settings). -/
structure DrawState where
  currentMode : ToolMode
  isDrawing : Bool
  currentPath : List Point
  drawings : List DrawingPath
  brushColor : String
  brushSize : ℚ
deriving Repr, DecidableEq

/-- The pen-mode branch of `handleStartInteraction` (src/App.tsx lines
228-231): set `isDrawing` and start `currentPathRef` at the pressed
position.  The branch reads no video timestamp. -/
def startPenStroke (pos : Point) (s : DrawState) : DrawState :=
  if s.currentMode = ToolMode.pen then
    { s with isDrawing := true, currentPath := [pos] }
  else s

/-- Handler `handleMoveInteraction` (src/App.tsx lines 234-251): while drawing in
pen mode, push the position onto `currentPathRef` (the live canvas
strokes are presentation only). -/
def handleMoveInteraction (pos : Point) (s : DrawState) : DrawState :=
  if s.isDrawing = false ∨ s.currentMode ≠ ToolMode.pen then s
  else { s with currentPath := s.currentPath ++ [pos] }

/-- Handler `handleEndInteraction` (src/App.tsx lines 253-270), with
`videoRef.current` present and its `currentTime` equal to `videoTime`:
when a pen stroke is in progress, clear `isDrawing`; append a
`DrawingPath` stamped with the CURRENT video time only if the recorded
path has more than one point; reset `currentPathRef`. -/
def handleEndInteraction (newId : String) (videoTime : ℚ)
    (s : DrawState) : DrawState :=
  if s.isDrawing = true ∧ s.currentMode = ToolMode.pen then
    let s1 :=
      if s.currentPath.length > 1 then
        { s with drawings := s.drawings ++
            [{ id := newId, time := jsOr videoTime 0,
               points := s.currentPath,
               color := s.brushColor, size := s.brushSize }] }
      else s
    { s1 with isDrawing := false, currentPath := [] }
  else s

/-- One complete pen stroke: press at `pos`, the recorded list of move
positions, then release while the video clock reads `tEnd`. -/
def penStroke (pos : Point) (moves : List Point) (newId : String)
    (tEnd : ℚ) (s : DrawState) : DrawState :=
  handleEndInteraction newId tEnd
    (moves.foldl (fun st p => handleMoveInteraction p st)
      (startPenStroke pos s))

/-- The items `redrawCanvas` (src/App.tsx lines 105-159) actually paints
after clearing: the polylines and the markers, in source order. -/
structure PaintedItems where
  paths : List DrawingPath
  markers : List Annotation
deriving Repr, DecidableEq

/-- Function `redrawCanvas` (src/App.tsx lines 105-159) as a selection function:
a drawing is stroked iff `Math.abs(drawing.time - time) < 0.5`, an
annotation marker likewise. -/
def redrawCanvas (drawings : List DrawingPath)
    (annotations : List Annotation) (time : ℚ) : PaintedItems :=
  { paths := drawings.filter (fun d => |d.time - time| < 1/2),
    markers := annotations.filter (fun a => |a.time - time| < 1/2) }

/-- The `AnalysisData` shape as it comes back from `JSON.parse` in
`handleLoadAnalysis`: every field may be absent (`undefined`). -/
structure ParsedAnalysisData where
  notes : Option String
  drawings : Option (List DrawingPath)
  annotations : Option (List Annotation)
  clips : Option (List Clip)
  primaryVideoFileName : Option String
deriving Repr, DecidableEq

/-- The contents of a zip archive that `JSZip.loadAsync` managed to read:
the `analysis_data.json` entry (`none` when absent, `some none` when
present but not valid JSON for the expected shape, `some (some d)` when
it parses), and the names of the other entries. -/
structure ZipContent where
  analysisJson : Option (Option ParsedAnalysisData)
  videoEntries : List String
deriving Repr, DecidableEq

/-- A selected archive file: either `JSZip.loadAsync` rejects, or it
yields readable contents. -/
inductive Archive
  | unreadable
  | readable (content : ZipContent)
deriving Repr, DecidableEq

/-- The App state written by `handleLoadAnalysis`. -/
structure LoadedState where
  notes : String
  drawings : List DrawingPath
  annotations : List Annotation
  clips : List Clip
  videoFileName : Option String
  videoAttached : Bool
deriving Repr, DecidableEq

/-- Handler `handleLoadAnalysis` (src/App.tsx lines 378-408), returning the new
App state and the alert message shown.  The cases mirror the source: a
rejected `loadAsync` (and the `TypeError` thrown when
`zip.file("analysis_data.json")` is null, which the same outer `.catch`
swallows) alerts "Arquivo ZIP inválido."; a `JSON.parse` failure alerts
"Arquivo de dados corrompido." with nothing applied; on a successful
parse each collection field is applied with a `|| default` fallback while
`primaryVideoFileName` is applied verbatim, and the video binary is
attached only when the (truthy) file name names an existing entry,
otherwise "Vídeo principal não encontrado no arquivo." is alerted. -/
def handleLoadAnalysis (arch : Archive) (s : LoadedState) :
    LoadedState × String :=
  match arch with
  | .unreadable => (s, "Arquivo ZIP inválido.")
  | .readable content =>
    match content.analysisJson with
    | Option.none => (s, "Arquivo ZIP inválido.")
    | some Option.none => (s, "Arquivo de dados corrompido.")
    | some (some data) =>
      let s1 : LoadedState :=
        { notes := data.notes.getD "",
          drawings := data.drawings.getD [],
          annotations := data.annotations.getD [],
          clips := data.clips.getD [],
          videoFileName := data.primaryVideoFileName,
          videoAttached := s.videoAttached }
      match data.primaryVideoFileName with
      | some nm =>
        if nm ≠ "" ∧ content.videoEntries.contains nm then
          ({ s1 with videoAttached := true },
           "Análise carregada com sucesso!")
        else (s1, "Vídeo principal não encontrado no arquivo.")
      | Option.none => (s1, "Vídeo principal não encontrado no arquivo.")

/-- Example video element for the C1 scenario: duration 10, clock at 9. -/
def videoEx1 : VideoEl :=
  { currentTime := 9, duration := 10, paused := true, playbackRate := 1 }

/-- Example empty app data. -/
def appDataEx1 : AppData :=
  { notes := "", drawings := [], annotations := [], clips := [] }

/-- Example bounding box for C9 (origin (10, 20), size 4 × 2). -/
def rectEx9 : Rect := { left := 10, top := 20, width := 4, height := 2 }

/-- Example Idle player state, paused at time 5. -/
def playerEx2 : PlayerState :=
  { video := { currentTime := 5, duration := 60, paused := true,
               playbackRate := 1 },
    isClipPlaying := false, activeClipId := none, savedTime := 0,
    savedWasPlaying := false, playbackSpeed := 1, isPlaying := false }

/-- Example clip for C2. -/
def clipEx2 : Clip :=
  { id := "c1", name := "Bottom Turn", startTime := 9, endTime := 10,
    duration := 2, speed := 1/2 }

/-- Example Idle player state for C3: video PLAYING at time 5. -/
def playerEx3 : PlayerState :=
  { video := { currentTime := 5, duration := 60, paused := false,
               playbackRate := 1 },
    isClipPlaying := false, activeClipId := none, savedTime := 0,
    savedWasPlaying := false, playbackSpeed := 1, isPlaying := true }

/-- First clip for C3. -/
def clipEx3a : Clip :=
  { id := "c1", name := "P1", startTime := 9, endTime := 10,
    duration := 2, speed := 1/2 }

/-- Second clip for C3, played with no intervening stop. -/
def clipEx3b : Clip :=
  { id := "c2", name := "P2", startTime := 20, endTime := 22,
    duration := 2, speed := 1/2 }

/-- A drawing sitting exactly 0.5 away from the render time 0. -/
def drawEx4 : DrawingPath :=
  { id := "d1", time := 1/2, points := [⟨0, 0⟩, ⟨1, 1⟩],
    color := "#00ff00", size := 5 }

/-- An annotation marker sitting exactly 0.5 away from the render time 0. -/
def annEx4 : Annotation :=
  { id := "a1", time := 1/2, x := 0, y := 0, text := "P1",
    color := "#00ff00" }

/-- An idle pen-mode drawing state for the C5 witness. -/
def drawStateEx5 : DrawState :=
  { currentMode := ToolMode.pen, isDrawing := false, currentPath := [],
    drawings := [], brushColor := "#ff0000", brushSize := 3 }

/-- An in-progress pen stroke that recorded only its press position. -/
def drawStateEx10 : DrawState :=
  { currentMode := ToolMode.pen, isDrawing := true,
    currentPath := [⟨1/2, 1/2⟩], drawings :=
      [{ id := "d0", time := 1, points := [⟨0, 0⟩, ⟨1, 1⟩],
         color := "#00ff00", size := 5 }],
    brushColor := "#00ff00", brushSize := 5 }

/-- An archive whose data record parses but carries none of the expected
fields. -/
def contentEx6 : ZipContent :=
  { analysisJson := some (some
      { notes := none, drawings := none, annotations := none,
        clips := none, primaryVideoFileName := none }),
    videoEntries := ["other.mp4"] }

/-- A prior App state holding a video file name. -/
def loadedEx6 : LoadedState :=
  { notes := "n", drawings := [], annotations := [], clips := [],
    videoFileName := some "old.mp4", videoAttached := true }

/-- A parsed record naming a video entry the archive does not hold. -/
def dataEx8 : ParsedAnalysisData :=
  { notes := some "obs", drawings := none, annotations := none,
    clips := some [{ id := "c1", name := "P1", startTime := 9,
                     endTime := 10, duration := 2, speed := 1/2 }],
    primaryVideoFileName := some "video.mp4" }

/-- An archive holding that record but not the named video. -/
def contentEx8 : ZipContent :=
  { analysisJson := some (some dataEx8), videoEntries := ["other.bin"] }

/-- A fresh App state for the C8 witness. -/
def loadedEx8 : LoadedState :=
  { notes := "", drawings := [], annotations := [], clips := [],
    videoFileName := none, videoAttached := false }

/-! ## Basic lemmas -/

/-- On JavaScript numbers, `a || 0` is the identity. -/
theorem jsOr_zero (a : ℚ) : jsOr a 0 = a := by
  unfold jsOr; split <;> simp_all

/-! ## Claim C1 -/

/-- Claim C1, amended: when the video's reported duration `D` is nonzero,
confirming a point annotation appends exactly one annotation and exactly
one clip, the clip having `duration = 2`, `speed = 0.5`, `startTime = t`
and `endTime = min (t + 2) D`. -/
theorem placePoint_creates_one_clip (annId clipId : String)
    (video : VideoEl) (pos : Point) (text brushColor : String)
    (s : AppData) (hD : video.duration ≠ 0) :
    (placePointAndClip annId clipId video pos text brushColor s).annotations
      = s.annotations ++
        [{ id := annId, time := video.currentTime, x := pos.x, y := pos.y,
           text := text, color := brushColor }] ∧
    (placePointAndClip annId clipId video pos text brushColor s).clips
      = s.clips ++
        [{ id := clipId, name := text, startTime := video.currentTime,
           endTime := min (video.currentTime + 2) video.duration,
           duration := 2, speed := 1/2 }] := by
  have h1 : ∀ b : ℚ, jsOr video.duration b = video.duration := by
    intro b; unfold jsOr; simp [hD]
  constructor
  · simp [placePointAndClip, jsOr_zero]
  · simp [placePointAndClip, jsOr_zero, h1]

/-- Witness for the amended claim C1, at the spec's concrete scenario:
duration 10, point at t = 9 named "Bottom Turn". -/
theorem placePoint_creates_one_clip_witness :
    videoEx1.duration ≠ 0 ∧
    ((placePointAndClip "a1" "c1" videoEx1 ⟨1/2, 1/2⟩ "Bottom Turn"
        "#00ff00" appDataEx1).annotations
      = appDataEx1.annotations ++
        [{ id := "a1", time := videoEx1.currentTime, x := 1/2, y := 1/2,
           text := "Bottom Turn", color := "#00ff00" }] ∧
     (placePointAndClip "a1" "c1" videoEx1 ⟨1/2, 1/2⟩ "Bottom Turn"
        "#00ff00" appDataEx1).clips
      = appDataEx1.clips ++
        [{ id := "c1", name := "Bottom Turn",
           startTime := videoEx1.currentTime,
           endTime := min (videoEx1.currentTime + 2) videoEx1.duration,
           duration := 2, speed := 1/2 }]) :=
  ⟨by decide,
   placePoint_creates_one_clip "a1" "c1" videoEx1 ⟨1/2, 1/2⟩ "Bottom Turn"
     "#00ff00" appDataEx1 (by decide)⟩

/-- Counterexample to claim C1 as stated: when the video element reports
duration 0 (falsy — e.g. metadata not yet loaded), the code falls back to
`endTime = t + 2`, here 3, whereas the claim requires
`min (t + 2) D = min 3 0 = 0`. -/
theorem placePoint_endTime_counterexample :
    ((placePointAndClip "a1" "c1"
        { currentTime := 1, duration := 0, paused := true, playbackRate := 1 }
        ⟨0, 0⟩ "P" "#00ff00"
        { notes := "", drawings := [], annotations := [], clips := [] }).clips.map
          Clip.endTime = [3]) ∧
    min ((1:ℚ) + 2) 0 = 0 ∧ (3:ℚ) ≠ 0 := by
  refine ⟨?_, by norm_num, by norm_num⟩
  norm_num [placePointAndClip, jsOr]

/-! ## Claim C2 -/

/-- Claim C2: from Idle with the video paused at time `T0`, `playClip c`
followed by `stopClip` with `resume = true` — the video clock having
moved arbitrarily to `t1` in between — puts the video back at `T0` and
paused, for every clip `c` (any `startTime`, `endTime`, `speed`). -/
theorem clip_roundtrip_restores (c : Clip) (s : PlayerState) (t1 : ℚ)
    (hIdle : s.isClipPlaying = false) (hPaused : s.video.paused = true) :
    (stopClip true (advanceTime t1 (playClip c s))).video.currentTime =
        s.video.currentTime ∧
    (stopClip true (advanceTime t1 (playClip c s))).video.paused = true ∧
    (stopClip true (advanceTime t1 (playClip c s))).isPlaying = false := by
  simp [playClip, stopClip, advanceTime, hIdle, hPaused]

/-- Witness for C2, from a paused Idle state at time 5 with the clock at
12 when stop is requested. -/
theorem clip_roundtrip_restores_witness :
    (playerEx2.isClipPlaying = false ∧ playerEx2.video.paused = true) ∧
    ((stopClip true (advanceTime 12 (playClip clipEx2 playerEx2))).video.currentTime =
        playerEx2.video.currentTime ∧
     (stopClip true (advanceTime 12 (playClip clipEx2 playerEx2))).video.paused = true ∧
     (stopClip true (advanceTime 12 (playClip clipEx2 playerEx2))).isPlaying = false) :=
  ⟨⟨rfl, rfl⟩, clip_roundtrip_restores clipEx2 playerEx2 12 rfl rfl⟩

/-! ## Claim C3 -/

/-- While already in clip playback, further `playClip` calls (each
preceded by an arbitrary clock movement) never touch the captured
`videoStateBeforeClip`, the `isClipPlaying` flag or the global
`playbackSpeed`. -/
theorem playSeq_preserves_saved (l : List (ℚ × Clip)) (s : PlayerState)
    (h : s.isClipPlaying = true) :
    (playSeq s l).savedTime = s.savedTime ∧
    (playSeq s l).savedWasPlaying = s.savedWasPlaying ∧
    (playSeq s l).isClipPlaying = true ∧
    (playSeq s l).playbackSpeed = s.playbackSpeed := by
  induction l generalizing s with
  | nil => simp [playSeq, h]
  | cons p rest ih =>
    have hstep :
        (playClip p.2 (advanceTime p.1 s)).savedTime = s.savedTime ∧
        (playClip p.2 (advanceTime p.1 s)).savedWasPlaying = s.savedWasPlaying ∧
        (playClip p.2 (advanceTime p.1 s)).isClipPlaying = true ∧
        (playClip p.2 (advanceTime p.1 s)).playbackSpeed = s.playbackSpeed := by
      simp [playClip, advanceTime, h]
    obtain ⟨e1, e2, e3, e4⟩ := ih (playClip p.2 (advanceTime p.1 s)) hstep.2.2.1
    simp only [playSeq, List.foldl_cons] at e1 e2 e3 e4 ⊢
    exact ⟨e1.trans hstep.1, e2.trans hstep.2.1, e3,
           e4.trans hstep.2.2.2⟩

/-- Claim C3: `videoStateBeforeClip` is captured only on the
Idle → ClipPlaying edge.  After a first `playClip` from Idle followed by
any nonempty further sequence of `playClip` calls with no intervening
stop, `stopClip` with resume restores the clock and the play/pause state
held before the FIRST play, not the most recent one. -/
theorem savedState_captured_on_first_play (s : PlayerState) (c : Clip)
    (l : List (ℚ × Clip)) (hIdle : s.isClipPlaying = false)
    (_hl : l ≠ []) :
    (stopClip true (playSeq (playClip c s) l)).video.currentTime =
        s.video.currentTime ∧
    (stopClip true (playSeq (playClip c s) l)).video.paused =
        s.video.paused ∧
    (stopClip true (playSeq (playClip c s) l)).isPlaying =
        !s.video.paused := by
  obtain ⟨e1, e2, e3, e4⟩ :=
    playSeq_preserves_saved l (playClip c s) (by simp [playClip])
  have hs1 : (playClip c s).savedTime = s.video.currentTime := by
    simp [playClip, hIdle]
  have hs2 : (playClip c s).savedWasPlaying = !s.video.paused := by
    simp [playClip, hIdle]
  rw [hs1] at e1
  rw [hs2] at e2
  cases hp : s.video.paused with
  | true => simp [stopClip, e1, e2, hp]
  | false => simp [stopClip, e1, e2, hp]

/-- Witness for C3: play clip c1 from time 5 (playing), then clip c2 with
the clock at 9.5, then stop; the state restored is the one before the
first play. -/
theorem savedState_captured_on_first_play_witness :
    (playerEx3.isClipPlaying = false ∧
     ([((19:ℚ)/2, clipEx3b)] ≠ ([] : List (ℚ × Clip)))) ∧
    ((stopClip true (playSeq (playClip clipEx3a playerEx3)
        [((19:ℚ)/2, clipEx3b)])).video.currentTime =
        playerEx3.video.currentTime ∧
     (stopClip true (playSeq (playClip clipEx3a playerEx3)
        [((19:ℚ)/2, clipEx3b)])).video.paused =
        playerEx3.video.paused ∧
     (stopClip true (playSeq (playClip clipEx3a playerEx3)
        [((19:ℚ)/2, clipEx3b)])).isPlaying =
        !playerEx3.video.paused) :=
  ⟨⟨rfl, by simp⟩,
   savedState_captured_on_first_play playerEx3 clipEx3a
     [((19:ℚ)/2, clipEx3b)] rfl (by simp)⟩

/-! ## Claim C4 -/

/-- Claim C4: the render pipeline paints a drawing or an annotation at
current time `t` iff the item's time lies strictly within 0.5 of `t`; an
item at distance exactly 0.5 is excluded. -/
theorem redrawCanvas_selects_iff (drawings : List DrawingPath)
    (annotations : List Annotation) (t : ℚ) (d : DrawingPath)
    (a : Annotation) :
    (d ∈ (redrawCanvas drawings annotations t).paths ↔
        d ∈ drawings ∧ |d.time - t| < 1/2) ∧
    (a ∈ (redrawCanvas drawings annotations t).markers ↔
        a ∈ annotations ∧ |a.time - t| < 1/2) ∧
    (|d.time - t| = 1/2 →
        d ∉ (redrawCanvas drawings annotations t).paths) ∧
    (|a.time - t| = 1/2 →
        a ∉ (redrawCanvas drawings annotations t).markers) := by
  refine ⟨?_, ?_, ?_, ?_⟩
  · simp [redrawCanvas, List.mem_filter]
  · simp [redrawCanvas, List.mem_filter]
  · intro h
    simp [redrawCanvas, List.mem_filter, h]
  · intro h
    simp [redrawCanvas, List.mem_filter, h]

/-- Witness for C4 at render time 0 with one drawing and one marker, both
exactly on the 0.5 boundary. -/
theorem redrawCanvas_selects_iff_witness :
    (drawEx4 ∈ (redrawCanvas [drawEx4] [annEx4] 0).paths ↔
        drawEx4 ∈ [drawEx4] ∧ |drawEx4.time - 0| < 1/2) ∧
    (annEx4 ∈ (redrawCanvas [drawEx4] [annEx4] 0).markers ↔
        annEx4 ∈ [annEx4] ∧ |annEx4.time - 0| < 1/2) ∧
    (|drawEx4.time - 0| = 1/2 →
        drawEx4 ∉ (redrawCanvas [drawEx4] [annEx4] 0).paths) ∧
    (|annEx4.time - 0| = 1/2 →
        annEx4 ∉ (redrawCanvas [drawEx4] [annEx4] 0).markers) :=
  redrawCanvas_selects_iff [drawEx4] [annEx4] 0 drawEx4 annEx4

/-! ## Claim C5 -/

/-- While a pen stroke is in progress, a sequence of move events appends
exactly the moved-through positions to the in-progress path and changes
nothing else. -/
theorem foldMoves_spec (moves : List Point) (s : DrawState)
    (hDraw : s.isDrawing = true) (hMode : s.currentMode = ToolMode.pen) :
    (moves.foldl (fun st p => handleMoveInteraction p st) s).currentPath
        = s.currentPath ++ moves ∧
    (moves.foldl (fun st p => handleMoveInteraction p st) s).isDrawing
        = true ∧
    (moves.foldl (fun st p => handleMoveInteraction p st) s).currentMode
        = ToolMode.pen ∧
    (moves.foldl (fun st p => handleMoveInteraction p st) s).drawings
        = s.drawings ∧
    (moves.foldl (fun st p => handleMoveInteraction p st) s).brushColor
        = s.brushColor ∧
    (moves.foldl (fun st p => handleMoveInteraction p st) s).brushSize
        = s.brushSize := by
  induction moves generalizing s with
  | nil => simp [hDraw, hMode]
  | cons p rest ih =>
    have hstep : handleMoveInteraction p s =
        { s with currentPath := s.currentPath ++ [p] } := by
      simp [handleMoveInteraction, hDraw, hMode]
    rw [List.foldl_cons, hstep]
    obtain ⟨e1, e2, e3, e4, e5, e6⟩ :=
      ih { s with currentPath := s.currentPath ++ [p] } hDraw hMode
    refine ⟨?_, e2, e3, e4, e5, e6⟩
    rw [e1]; simp

/-- Claim C5, amended: a pen stroke with at least one recorded move is
committed atomically when the stroke ends — a single append of the
complete point sequence — but its `time` field is the video timestamp at
the END of the stroke (the release), not at its start. -/
theorem penStroke_commits_at_end (pos : Point) (moves : List Point)
    (newId : String) (tEnd : ℚ) (s : DrawState)
    (hMode : s.currentMode = ToolMode.pen) (hMoves : moves ≠ []) :
    (penStroke pos moves newId tEnd s).drawings =
      s.drawings ++
        [{ id := newId, time := tEnd, points := pos :: moves,
           color := s.brushColor, size := s.brushSize }] ∧
    (penStroke pos moves newId tEnd s).currentPath = [] ∧
    (penStroke pos moves newId tEnd s).isDrawing = false := by
  obtain ⟨q, qs, rfl⟩ : ∃ q qs, moves = q :: qs := by
    cases moves with
    | nil => exact absurd rfl hMoves
    | cons q qs => exact ⟨q, qs, rfl⟩
  have hstart : startPenStroke pos s =
      { s with isDrawing := true, currentPath := [pos] } := by
    simp [startPenStroke, hMode]
  obtain ⟨e1, e2, e3, e4, e5, e6⟩ :=
    foldMoves_spec (q :: qs)
      { s with isDrawing := true, currentPath := [pos] } rfl hMode
  unfold penStroke
  rw [hstart]
  unfold handleEndInteraction
  simp only [e1, e2, e3, e4, e5, e6]
  simp [jsOr_zero]

/-- Witness for the amended claim C5: a stroke pressed at (0, 0) with one
recorded move, released at video time 7, commits exactly one complete
path stamped 7. -/
theorem penStroke_commits_at_end_witness :
    (drawStateEx5.currentMode = ToolMode.pen ∧
     ([(⟨1/4, 1/4⟩ : Point)] ≠ ([] : List Point))) ∧
    ((penStroke ⟨0, 0⟩ [⟨1/4, 1/4⟩] "d1" 7 drawStateEx5).drawings =
        drawStateEx5.drawings ++
          [{ id := "d1", time := 7, points := ⟨(0:ℚ), 0⟩ :: [⟨(1:ℚ)/4, 1/4⟩],
             color := drawStateEx5.brushColor,
             size := drawStateEx5.brushSize }] ∧
     (penStroke ⟨0, 0⟩ [⟨1/4, 1/4⟩] "d1" 7 drawStateEx5).currentPath = [] ∧
     (penStroke ⟨0, 0⟩ [⟨1/4, 1/4⟩] "d1" 7 drawStateEx5).isDrawing = false) :=
  ⟨⟨rfl, by simp⟩,
   penStroke_commits_at_end ⟨0, 0⟩ [⟨1/4, 1/4⟩] "d1" 7 drawStateEx5 rfl
     (by simp)⟩

/-- Counterexample to claim C5 as stated: the stroke-start branch of
`handleStartInteraction` (lines 228-231) records no video timestamp, so
for a stroke begun while the clock read 3 and released while it read 7
the committed `DrawingPath.time` is 7 — the timestamp at stroke END —
and not 3. -/
theorem penStroke_time_counterexample :
    ((penStroke ⟨0, 0⟩ [⟨1/4, 1/4⟩] "d1" 7
        { currentMode := ToolMode.pen, isDrawing := false,
          currentPath := [], drawings := [], brushColor := "#00ff00",
          brushSize := 5 }).drawings.map DrawingPath.time = [7]) ∧
    (7:ℚ) ≠ 3 := by
  refine ⟨?_, by norm_num⟩
  norm_num [penStroke, startPenStroke, handleMoveInteraction,
    handleEndInteraction, jsOr]

/-! ## Claim C6 -/

/-- Claim C6, amended: on a successfully parsed data record, the missing
collection fields are defaulted — `notes` to `""`, `drawings`,
`annotations` and `clips` to `[]` — but `primaryVideoFileName` is NOT
defaulted: it is applied verbatim, absent (`undefined`) staying absent. -/
theorem load_defaults_fields (content : ZipContent)
    (data : ParsedAnalysisData) (s : LoadedState)
    (hJson : content.analysisJson = some (some data)) :
    (handleLoadAnalysis (Archive.readable content) s).1.notes =
        data.notes.getD "" ∧
    (handleLoadAnalysis (Archive.readable content) s).1.drawings =
        data.drawings.getD [] ∧
    (handleLoadAnalysis (Archive.readable content) s).1.annotations =
        data.annotations.getD [] ∧
    (handleLoadAnalysis (Archive.readable content) s).1.clips =
        data.clips.getD [] ∧
    (handleLoadAnalysis (Archive.readable content) s).1.videoFileName =
        data.primaryVideoFileName := by
  cases hn : data.primaryVideoFileName with
  | none => simp [handleLoadAnalysis, hJson, hn]
  | some nm =>
    simp only [handleLoadAnalysis, hJson, hn]
    split <;> simp

/-- Witness for the amended claim C6, on a record with every field
absent. -/
theorem load_defaults_fields_witness :
    contentEx6.analysisJson = some (some
      { notes := none, drawings := none, annotations := none,
        clips := none, primaryVideoFileName := none }) ∧
    ((handleLoadAnalysis (Archive.readable contentEx6) loadedEx6).1.notes =
        (Option.getD Option.none "") ∧
     (handleLoadAnalysis (Archive.readable contentEx6) loadedEx6).1.drawings =
        (Option.getD Option.none []) ∧
     (handleLoadAnalysis (Archive.readable contentEx6) loadedEx6).1.annotations =
        (Option.getD Option.none []) ∧
     (handleLoadAnalysis (Archive.readable contentEx6) loadedEx6).1.clips =
        (Option.getD Option.none []) ∧
     (handleLoadAnalysis (Archive.readable contentEx6) loadedEx6).1.videoFileName =
        Option.none) :=
  ⟨rfl, load_defaults_fields contentEx6
      { notes := none, drawings := none, annotations := none,
        clips := none, primaryVideoFileName := none } loadedEx6 rfl⟩

/-- Counterexample to claim C6 as stated: a parsed record with
`primaryVideoFileName` absent does NOT default the field — the loaded
state's video file name is `undefined` (here `Option.none`), not the
empty-string default the claim extends to every field — while the same
load does default `notes` to `""`. -/
theorem load_videoFileName_not_defaulted :
    (handleLoadAnalysis (Archive.readable contentEx6) loadedEx6).1.videoFileName
      = Option.none ∧
    (Option.none ≠ some "") ∧
    (handleLoadAnalysis (Archive.readable contentEx6) loadedEx6).1.notes = "" := by
  refine ⟨rfl, by simp, rfl⟩

/-! ## Claim C7 -/

/-- Claim C7: deleting a clip removes exactly the clips carrying its id
and exactly the annotations whose text equals its name (all of them when
several share the name), leaves the drawings untouched, and preserves the
relative order of what remains. -/
theorem deleteClip_spec (clip : Clip) (s : AppData) :
    (∀ c : Clip, c ∈ (deleteClip clip s).clips ↔
        c ∈ s.clips ∧ c.id ≠ clip.id) ∧
    (∀ a : Annotation, a ∈ (deleteClip clip s).annotations ↔
        a ∈ s.annotations ∧ a.text ≠ clip.name) ∧
    (deleteClip clip s).drawings = s.drawings ∧
    (deleteClip clip s).annotations.countP
        (fun a => a.text = clip.name) = 0 ∧
    (deleteClip clip s).annotations.Sublist s.annotations ∧
    (deleteClip clip s).clips.Sublist s.clips := by
  refine ⟨?_, ?_, rfl, ?_, ?_, ?_⟩
  · intro c; simp [deleteClip, List.mem_filter]
  · intro a; simp [deleteClip, List.mem_filter]
  · rw [List.countP_eq_zero]
    intro a ha
    simp only [deleteClip, List.mem_filter] at ha
    simpa using ha.2
  · exact List.filter_sublist _
  · exact List.filter_sublist _

/-! ## Claim C8 -/

/-- Claim C8: each archive-load failure carries its own distinct report —
unreadable archive → "Arquivo ZIP inválido.", unparsable record →
"Arquivo de dados corrompido.", missing named video entry → "Vídeo
principal não encontrado no arquivo." — and in the missing-video case the
parsed notes/drawings/annotations/clips are still applied to the
in-memory state while no video is attached. -/
theorem load_failure_reports (s : LoadedState) (content : ZipContent)
    (data : ParsedAnalysisData) (nm : String)
    (hJson : content.analysisJson = some (some data))
    (hName : data.primaryVideoFileName = some nm)
    (hMissing : content.videoEntries.contains nm = false) :
    ((handleLoadAnalysis Archive.unreadable s).2 = "Arquivo ZIP inválido." ∧
     (handleLoadAnalysis Archive.unreadable s).1 = s) ∧
    (∀ c : ZipContent, c.analysisJson = some Option.none →
        (handleLoadAnalysis (Archive.readable c) s).2 =
          "Arquivo de dados corrompido." ∧
        (handleLoadAnalysis (Archive.readable c) s).1 = s) ∧
    ((handleLoadAnalysis (Archive.readable content) s).2 =
        "Vídeo principal não encontrado no arquivo." ∧
     (handleLoadAnalysis (Archive.readable content) s).1 =
       { notes := data.notes.getD "", drawings := data.drawings.getD [],
         annotations := data.annotations.getD [],
         clips := data.clips.getD [], videoFileName := some nm,
         videoAttached := s.videoAttached }) ∧
    ("Arquivo ZIP inválido." ≠ "Arquivo de dados corrompido." ∧
     "Arquivo ZIP inválido." ≠ "Vídeo principal não encontrado no arquivo." ∧
     "Arquivo de dados corrompido." ≠
       "Vídeo principal não encontrado no arquivo.") := by
  refine ⟨⟨rfl, rfl⟩, ?_, ?_, by decide, by decide, by decide⟩
  · intro c hc
    simp [handleLoadAnalysis, hc]
  · have hm : nm ∉ content.videoEntries := by
      simpa using hMissing
    simp [handleLoadAnalysis, hJson, hName, hm]

/-- Witness for C8, on an archive whose record names "video.mp4" while
only "other.bin" is present. -/
theorem load_failure_reports_witness :
    (contentEx8.analysisJson = some (some dataEx8) ∧
     dataEx8.primaryVideoFileName = some "video.mp4" ∧
     contentEx8.videoEntries.contains "video.mp4" = false) ∧
    (((handleLoadAnalysis Archive.unreadable loadedEx8).2 =
        "Arquivo ZIP inválido." ∧
      (handleLoadAnalysis Archive.unreadable loadedEx8).1 = loadedEx8) ∧
     (∀ c : ZipContent, c.analysisJson = some Option.none →
        (handleLoadAnalysis (Archive.readable c) loadedEx8).2 =
          "Arquivo de dados corrompido." ∧
        (handleLoadAnalysis (Archive.readable c) loadedEx8).1 = loadedEx8) ∧
     ((handleLoadAnalysis (Archive.readable contentEx8) loadedEx8).2 =
        "Vídeo principal não encontrado no arquivo." ∧
      (handleLoadAnalysis (Archive.readable contentEx8) loadedEx8).1 =
        { notes := dataEx8.notes.getD "",
          drawings := dataEx8.drawings.getD [],
          annotations := dataEx8.annotations.getD [],
          clips := dataEx8.clips.getD [],
          videoFileName := some "video.mp4",
          videoAttached := loadedEx8.videoAttached }) ∧
     ("Arquivo ZIP inválido." ≠ "Arquivo de dados corrompido." ∧
      "Arquivo ZIP inválido." ≠ "Vídeo principal não encontrado no arquivo." ∧
      "Arquivo de dados corrompido." ≠
        "Vídeo principal não encontrado no arquivo.")) :=
  ⟨⟨rfl, rfl, rfl⟩,
   load_failure_reports loadedEx8 contentEx8 dataEx8 "video.mp4"
     rfl rfl rfl⟩

/-! ## Claim C9 -/

/-- Claim C9: for a bounding box of positive size, the normalizer returns
exactly `x = (clientX − left)/width`, `y = (clientY − top)/height` — no
clamping — and computes the same formula for a mouse event and for the
first touch point of a touch event. -/
theorem getNormalizedPos_spec (cx cy : ℚ) (rect : Rect)
    (rest : List Touch) (_hw : 0 < rect.width) (_hh : 0 < rect.height) :
    getNormalizedPos (.mouse cx cy) rect =
      { x := (cx - rect.left) / rect.width,
        y := (cy - rect.top) / rect.height } ∧
    getNormalizedPos (.touch ⟨cx, cy⟩ rest) rect =
      getNormalizedPos (.mouse cx cy) rect :=
  ⟨rfl, rfl⟩

/-- Witness for C9, at a pointer position whose normalized x, 3/2, falls
outside \x7b0..1\x7d — confirming the absence of clamping on a concrete
input. -/
theorem getNormalizedPos_spec_witness :
    (0 < rectEx9.width ∧ 0 < rectEx9.height) ∧
    (getNormalizedPos (.mouse 16 21) rectEx9 =
       { x := ((16:ℚ) - rectEx9.left) / rectEx9.width,
         y := ((21:ℚ) - rectEx9.top) / rectEx9.height } ∧
     getNormalizedPos (.touch ⟨16, 21⟩ []) rectEx9 =
       getNormalizedPos (.mouse 16 21) rectEx9) :=
  ⟨⟨by decide, by decide⟩,
   getNormalizedPos_spec 16 21 rectEx9 [] (by decide) (by decide)⟩

/-! ## Claim C10 -/

/-- Claim C10: when an in-progress pen stroke has recorded fewer than two
points, ending the interaction commits nothing: the drawings collection
is exactly unchanged and the in-progress path is discarded. -/
theorem handleEnd_short_stroke (newId : String) (t : ℚ) (s : DrawState)
    (hDraw : s.isDrawing = true) (hMode : s.currentMode = ToolMode.pen)
    (hLen : s.currentPath.length < 2) :
    (handleEndInteraction newId t s).drawings = s.drawings ∧
    (handleEndInteraction newId t s).currentPath = [] := by
  have hlen : ¬ s.currentPath.length > 1 := by omega
  simp [handleEndInteraction, hDraw, hMode, hlen]

/-- Witness for C10: releasing a one-point stroke at video time 4 leaves
the single pre-existing drawing alone and clears the path. -/
theorem handleEnd_short_stroke_witness :
    (drawStateEx10.isDrawing = true ∧
     drawStateEx10.currentMode = ToolMode.pen ∧
     drawStateEx10.currentPath.length < 2) ∧
    ((handleEndInteraction "d9" 4 drawStateEx10).drawings =
        drawStateEx10.drawings ∧
     (handleEndInteraction "d9" 4 drawStateEx10).currentPath = []) :=
  ⟨⟨rfl, rfl, by decide⟩,
   handleEnd_short_stroke "d9" 4 drawStateEx10 rfl rfl (by decide)⟩

end VideoAnalise
